import Mathlib

/-!
Verification of the tolerant-deserialization layer and request dispatcher of
the `dexscreener-rs` library (a typed Rust client for the DexScreener HTTP
API), shallowly embedded in Lean 4.

Modelling conventions:

* JSON values are the inductive `Json` below.  A JSON number is carried as
  its wire text (`Json.num lit`), which is what both `serde_json`'s number
  lexer and `f64::from_str` actually consume; its exact decimal value is a
  rational number.
* `f64` values are modelled exactly, as `F64` (a rational, or one of the
  IEEE-754 specials `inf`/`nan` that `f64::from_str` can produce).  Both
  `serde_json`'s number parser and `f64::from_str` are correctly-rounding
  decimal-to-binary64 conversions, so two wire forms decode to the same
  `f64` whenever their exact decimal values coincide; the model therefore
  keeps the exact value and drops the final (shared) rounding step.
* `chrono::DateTime<Utc>` is modelled as the total number of nanoseconds
  since the Unix epoch (`Int`).
* Rust functions that can panic are modelled with an explicit `panicked`
  result (`DResult`): `.unwrap()` of `None` maps to `.panicked`.
* Rust `/` and `%` on `i64` truncate toward zero, hence `Int.tdiv` and
  `Int.tmod`; the `as u32` cast is a wrap to `[0, 2^32)`.
-/

namespace DexscreenerRs

/-- JSON values as handed to the `serde` deserializers.  A number keeps its
wire text `lit` (e.g. `"3000.5"`, `"-1"`); objects are association lists. -/
inductive Json where
  | num (lit : String)
  | str (s : String)
  | bool (b : Bool)
  | null
  | arr (xs : List Json)
  | obj (fields : List (String × Json))

/-- Decode-level errors (`serde` error values), as produced by the code:
`custom` is `serde::de::Error::custom` with its message, `missingField`
and `invalidType` are serde's structural errors, `noVariant` is the
"data did not match any variant of untagged enum _" error. -/
inductive DecErr where
  | custom (msg : String)
  | invalidType (msg : String)
  | missingField (name : String)
  | noVariant (enumName : String)
deriving DecidableEq, Repr

/-- Outcome of running a deserializer: a value, a returned error value, or a
process fault (Rust panic, e.g. `.unwrap()` on `None`). -/
inductive DResult (α : Type) where
  | ok (a : α)
  | err (e : DecErr)
  | panicked
deriving DecidableEq, Repr

def DResult.map {α β : Type} (f : α → β) : DResult α → DResult β
  | .ok a => .ok (f a)
  | .err e => .err e
  | .panicked => .panicked

instance : Monad DResult where
  pure a := .ok a
  map := DResult.map
  bind x f := match x with
    | .ok a => f a
    | .err e => .err e
    | .panicked => .panicked

/-- Exact model of an `f64` produced by parsing: a finite value (exact
rational, rounding to binary64 abstracted away) or one of the specials
`f64::from_str` can yield. -/
inductive F64 where
  | finite (q : ℚ)
  | inf (neg : Bool)
  | nan
deriving DecidableEq

/-! ### Character-level parsing helpers (shared by the number grammars) -/

def digitVal (c : Char) : Nat := c.toNat - 48

/-- Split off the longest prefix of decimal digits. -/
def splitDigits : List Char → List Char × List Char
  | [] => ([], [])
  | c :: cs =>
    if c.isDigit then
      let p := splitDigits cs
      (c :: p.1, p.2)
    else ([], c :: cs)

def digitsToNat (ds : List Char) : Nat :=
  ds.foldl (fun a c => 10 * a + digitVal c) 0

/-- Leading `.` splitter: `some r` when the input is `'.' :: r`. -/
def dotSplit : List Char → Option (List Char)
  | c :: r => if c = '.' then some r else none
  | [] => none

/-- Exact decimal value `±(I.F) · 10^ex` of a parsed significand/exponent. -/
def decVal (neg : Bool) (ipart fpart : List Char) (ex : Int) : ℚ :=
  let m : ℚ := (digitsToNat ipart : ℚ) + (digitsToNat fpart : ℚ) / (10 : ℚ) ^ fpart.length
  let v := m * (10 : ℚ) ^ ex
  if neg then -v else v

/-- Optional exponent part, shared verbatim by the JSON number grammar and
Rust's float grammar: empty input means exponent 0; otherwise `e`/`E`,
an optional sign, one or more digits, and end of input. -/
def parseExpBody (cs : List Char) : Option Int :=
  let p0 : Bool × List Char :=
    match cs with
    | c :: r => if c = '+' then (false, r) else if c = '-' then (true, r) else (false, cs)
    | [] => (false, [])
  let p := splitDigits p0.2
  if p.1 = [] then none
  else if p.2 = [] then
    some (if p0.1 then -(digitsToNat p.1 : Int) else (digitsToNat p.1 : Int))
  else none

def parseExp : List Char → Option Int
  | [] => some 0
  | c :: cs => if c = 'e' ∨ c = 'E' then parseExpBody cs else none

/-! ### The JSON number grammar (what `serde_json` accepts on the wire)

`number = '-'? int frac? exp?`, `int = '0' | [1-9][0-9]*`,
`frac = '.' [0-9]+`, `exp = ('e'|'E') ('+'|'-')? [0-9]+`. -/

def jsonNumTail (neg : Bool) (cs1 : List Char) : Option ℚ :=
  let p := splitDigits cs1
  if p.1 = [] then none
  else if p.1.head? = some '0' ∧ p.1.length ≠ 1 then none
  else
    match dotSplit p.2 with
    | some r2 =>
      let pf := splitDigits r2
      if pf.1 = [] then none
      else (parseExp pf.2).map (decVal neg p.1 pf.1)
    | none => (parseExp p.2).map (decVal neg p.1 [])

/-- Exact value of a JSON number literal, `none` when `lit` is not a valid
JSON number. -/
def jsonNumQ (lit : String) : Option ℚ :=
  match lit.data with
  | c :: r => if c = '-' then jsonNumTail true r else jsonNumTail false (c :: r)
  | [] => none

/-! ### Rust's `f64::from_str` grammar

`[+-]? ( 'inf' | 'infinity' | 'nan' (case-insensitive)
       | ( digits '.'? digits? | '.' digits ) exp? )`. -/

def rustKeyword (neg : Bool) (cs1 : List Char) : Option F64 :=
  let low := cs1.map Char.toLower
  if low = "inf".data ∨ low = "infinity".data then some (.inf neg)
  else if low = "nan".data then some .nan
  else none

def rustFloatTail (neg : Bool) (cs1 : List Char) : Option F64 :=
  let p := splitDigits cs1
  match dotSplit p.2 with
  | some r2 =>
    let pf := splitDigits r2
    if p.1 = [] ∧ pf.1 = [] then none
    else (parseExp pf.2).map (fun ex => F64.finite (decVal neg p.1 pf.1 ex))
  | none =>
    if p.1 = [] then rustKeyword neg cs1
    else (parseExp p.2).map (fun ex => F64.finite (decVal neg p.1 [] ex))

/-- Exact model of `f64::from_str` (`s.parse::<f64>()`): `none` is
`Err(ParseFloatError)`, whose display text is always the fixed string
`"invalid float literal"`. -/
def rustFloatParse (s : String) : Option F64 :=
  match s.data with
  | c :: r =>
    if c = '+' then rustFloatTail false r
    else if c = '-' then rustFloatTail true r
    else rustFloatTail false (c :: r)
  | [] => none

/-! ### Rust's `i64::from_str` (`s.parse::<i64>()`) -/

inductive IntParseErr where
  | empty
  | invalidDigit
  | posOverflow
  | negOverflow
deriving DecidableEq, Repr

/-- Display text of Rust's `ParseIntError` (none of them quote the input). -/
def intErrMsg : IntParseErr → String
  | .empty => "cannot parse integer from empty string"
  | .invalidDigit => "invalid digit found in string"
  | .posOverflow => "number too large to fit in target type"
  | .negOverflow => "number too small to fit in target type"

inductive I64Parse where
  | ok (v : Int)
  | err (k : IntParseErr)
deriving DecidableEq, Repr

def I64_MIN : Int := -9223372036854775808
def I64_MAX : Int := 9223372036854775807

/-- Digit-by-digit accumulation with the same overflow checks as Rust's
`from_str_radix` loop (checked multiply/add against the `i64` range). -/
def i64Accum (neg : Bool) : Int → List Char → I64Parse
  | acc, [] => .ok acc
  | acc, c :: cs =>
    if c.isDigit then
      let acc' := if neg then acc * 10 - (digitVal c : Int) else acc * 10 + (digitVal c : Int)
      if acc' < I64_MIN then .err .negOverflow
      else if I64_MAX < acc' then .err .posOverflow
      else i64Accum neg acc' cs
    else .err .invalidDigit

def i64FromStr (s : String) : I64Parse :=
  match s.data with
  | [] => .err .empty
  | c :: r =>
    if c = '+' then (if r = [] then .err .invalidDigit else i64Accum false 0 r)
    else if c = '-' then (if r = [] then .err .invalidDigit else i64Accum true 0 r)
    else i64Accum false 0 (c :: r)

/-- The `i64` untagged-variant view of a JSON number: `serde_json` yields an
`i64` exactly for integer-shaped literals (no fraction, no exponent) whose
value fits `i64`.  The literal `-0` is excluded: `serde_json` parses `-0`
as the float `-0.0` to preserve the zero's sign, so it never reaches an
integer variant. -/
def jsonIntVal (lit : String) : Option Int :=
  let p0 : Bool × List Char :=
    match lit.data with
    | c :: r => if c = '-' then (true, r) else (false, lit.data)
    | [] => (false, [])
  let p := splitDigits p0.2
  if p.1 = [] then none
  else if p.1.head? = some '0' ∧ p.1.length ≠ 1 then none
  else if p.2 = [] then
    if p0.1 ∧ digitsToNat p.1 = 0 then none
    else
      let v : Int := if p0.1 then -(digitsToNat p.1 : Int) else (digitsToNat p.1 : Int)
      if I64_MIN ≤ v ∧ v ≤ I64_MAX then some v else none
  else none

/-! ### `deserialize_string_or_number` and `deserialize_optional_string_or_number`
(src/models.rs).  The untagged enums try `String`, then `Number` (then unit,
for the optional variant, which serde matches against JSON `null`); on the
disjoint `Json` shapes this is a simple dispatch.  A failed
`f64::from_str` is surfaced via `serde::de::Error::custom(e)`, whose
message is `ParseFloatError`'s fixed display text. -/

def deserialize_string_or_number : Json → DResult F64
  | .str s =>
    match rustFloatParse s with
    | some v => .ok v
    | none => .err (.custom "invalid float literal")
  | .num lit =>
    match jsonNumQ lit with
    | some q => .ok (.finite q)
    | none => .err (.noVariant "StringOrNumber")
  | _ => .err (.noVariant "StringOrNumber")

def deserialize_optional_string_or_number : Json → DResult (Option F64)
  | .str s =>
    if s = "" then .ok none
    else
      match rustFloatParse s with
      | some v => .ok (some v)
      | none => .err (.custom "invalid float literal")
  | .num lit =>
    match jsonNumQ lit with
    | some q => .ok (some (.finite q))
    | none => .err (.noVariant "OptionalStringOrNumber")
  | .null => .ok none
  | _ => .err (.noVariant "OptionalStringOrNumber")

/-! ### The chrono model

A `DateTime<Utc>` is the total count of nanoseconds since the Unix epoch.
`Utc.timestamp_opt(secs, nsecs)` is `Some` exactly when `nsecs` is below
2·10⁹ (values in [10⁹, 2·10⁹) are chrono's leap-second representation) and
`secs` lies in chrono's representable range (years -262144..=262143). -/

/-- `chrono`: smallest `DateTime<Utc>` timestamp, seconds of -262144-01-01T00:00:00Z. -/
def MIN_TIMESTAMP_SECS : Int := -8334632851200

/-- `chrono`: largest `DateTime<Utc>` timestamp, seconds of 262143-12-31T23:59:59Z. -/
def MAX_TIMESTAMP_SECS : Int := 8210298412799

def timestamp_opt (secs : Int) (nsecs : Nat) : Option Int :=
  if nsecs < 2000000000 ∧ MIN_TIMESTAMP_SECS ≤ secs ∧ secs ≤ MAX_TIMESTAMP_SECS then
    some (secs * 1000000000 + (nsecs : Int))
  else none

/-- Rust's `v as u32` for `v : i64`: wrap into `[0, 2^32)`. -/
def u32Cast (v : Int) : Nat := (v % 4294967296).toNat

/-- The millisecond-epoch interpretation of the code (src/models.rs):
`secs = ts / 1000; nsecs = ((ts % 1000) * 1_000_000) as u32;`
then `Utc.timestamp_opt(secs, nsecs).unwrap()` — the `unwrap` panics when
`timestamp_opt` yields no instant. -/
def epochMsDecode (ts : Int) : DResult (Option Int) :=
  let secs := Int.tdiv ts 1000
  let nsecs := u32Cast (Int.tmod ts 1000 * 1000000)
  match timestamp_opt secs nsecs with
  | some dt => .ok (some dt)
  | none => .panicked

/-- `chrono`'s `timestamp_millis` on the nanosecond model (floor division). -/
def timestamp_millis (dt : Int) : Int := Int.fdiv dt 1000000

/-- `chrono`'s `timestamp` (epoch seconds) on the nanosecond model. -/
def timestamp_secs (dt : Int) : Int := Int.fdiv dt 1000000000

/-! ### `DateTime::parse_from_rfc3339` (chrono)

`YYYY-MM-DD` `T`/`t` `HH:MM:SS` (`.` digits⁺)? (`Z`/`z` | `±HH:MM`), with
calendar/time-of-day validation; the parsed instant is returned in UTC as
total nanoseconds since the epoch (leap second `:60` folds into the next
second, matching the nanosecond count chrono stores). -/

def parseNDigitsAux : Nat → Nat → List Char → Option (Nat × List Char)
  | 0, acc, cs => some (acc, cs)
  | n + 1, acc, cs =>
    match cs with
    | c :: r => if c.isDigit then parseNDigitsAux n (10 * acc + digitVal c) r else none
    | [] => none

def parseNDigits (n : Nat) (cs : List Char) : Option (Nat × List Char) :=
  parseNDigitsAux n 0 cs

def expectChar (c : Char) : List Char → Option (List Char)
  | x :: r => if x = c then some r else none
  | [] => none

def isLeapYear (y : Int) : Bool :=
  Int.emod y 4 = 0 ∧ (Int.emod y 100 ≠ 0 ∨ Int.emod y 400 = 0)

def daysInMonth (y : Int) (m : Nat) : Nat :=
  if m = 2 then (if isLeapYear y then 29 else 28)
  else if m = 4 ∨ m = 6 ∨ m = 9 ∨ m = 11 then 30
  else 31

/-- Days from the epoch (1970-01-01) to the given proleptic-Gregorian civil
date (Howard Hinnant's `days_from_civil`). -/
def daysFromCivil (y : Int) (m d : Nat) : Int :=
  let y' : Int := if m ≤ 2 then y - 1 else y
  let era : Int := Int.fdiv y' 400
  let yoe : Int := y' - era * 400
  let mp : Int := if 2 < m then (m : Int) - 3 else (m : Int) + 9
  let doy : Int := Int.ediv (153 * mp + 2) 5 + (d : Int) - 1
  let doe : Int := yoe * 365 + Int.ediv yoe 4 - Int.ediv yoe 100 + doy
  era * 146097 + doe - 719468

/-- Fractional seconds: digits after the `.`; chrono keeps the first nine
digits as the nanosecond count and ignores further digits. -/
def nanosOfFracDigits (ds : List Char) : Nat :=
  let d9 := ds.take 9
  digitsToNat d9 * 10 ^ (9 - d9.length)

def parseOptFrac : List Char → Option (Nat × List Char)
  | c :: r =>
    if c = '.' then
      let p := splitDigits r
      if p.1 = [] then none else some (nanosOfFracDigits p.1, p.2)
    else some (0, c :: r)
  | [] => some (0, [])

def parseOffset : List Char → Option (Int × List Char)
  | c :: r =>
    if c = 'Z' ∨ c = 'z' then some (0, r)
    else if c = '+' ∨ c = '-' then do
      let (oh, r1) ← parseNDigits 2 r
      let r2 ← expectChar ':' r1
      let (om, r3) ← parseNDigits 2 r2
      if oh ≤ 23 ∧ om ≤ 59 then
        let mag : Int := (oh : Int) * 3600 + (om : Int) * 60
        some (if c = '-' then -mag else mag, r3)
      else none
    else none
  | [] => none

def parse_from_rfc3339 (s : String) : Option Int := do
  let (y, cs1) ← parseNDigits 4 s.data
  let cs2 ← expectChar '-' cs1
  let (mo, cs3) ← parseNDigits 2 cs2
  let cs4 ← expectChar '-' cs3
  let (d, cs5) ← parseNDigits 2 cs4
  let cs6 ←
    match cs5 with
    | c :: r => if c = 'T' ∨ c = 't' then some r else none
    | [] => none
  let (h, cs7) ← parseNDigits 2 cs6
  let cs8 ← expectChar ':' cs7
  let (mi, cs9) ← parseNDigits 2 cs8
  let cs10 ← expectChar ':' cs9
  let (sec, cs11) ← parseNDigits 2 cs10
  let (nanos, cs12) ← parseOptFrac cs11
  let (offSecs, cs13) ← parseOffset cs12
  if cs13 = [] ∧ 1 ≤ mo ∧ mo ≤ 12 ∧ 1 ≤ d ∧ d ≤ daysInMonth (y : Int) mo ∧
      h ≤ 23 ∧ mi ≤ 59 ∧ sec ≤ 60 then
    some ((daysFromCivil (y : Int) mo d * 86400 + (h : Int) * 3600 + (mi : Int) * 60 +
        (sec : Int) - offSecs) * 1000000000 + (nanos : Int))
  else none

/-! ### `deserialize_timestamp_to_datetime` (src/models.rs)

Untagged `TimestampOrString`: `Timestamp(i64)` matches integer-shaped JSON
numbers in `i64` range, `String` matches JSON strings, the unit variant
matches `null`.  On a string: empty → `None`; else RFC 3339 first, then
`parse::<i64>()` with the same millisecond interpretation; if both fail,
`serde::de::Error::custom(format!("Failed to parse datetime: {}", e))`
where `e` is the *integer* parse error. -/

def deserialize_timestamp_to_datetime : Json → DResult (Option Int)
  | .num lit =>
    match jsonIntVal lit with
    | some ts => epochMsDecode ts
    | none => .err (.noVariant "TimestampOrString")
  | .str s =>
    if s = "" then .ok none
    else
      match parse_from_rfc3339 s with
      | some dt => .ok (some dt)
      | none =>
        match i64FromStr s with
        | .ok ts => epochMsDecode ts
        | .err e => .err (.custom ("Failed to parse datetime: " ++ intErrMsg e))
  | .null => .ok none
  | _ => .err (.noVariant "TimestampOrString")

/-! ### The domain data model (src/models.rs) and its derived decoders

Derived `serde` struct decoding is modelled field-by-field via association
list lookup (first occurrence; unknown fields are ignored, as by default in
serde).  `#[serde(default)]` on a field means an absent key yields the
default instead of an error, and `Option<T>` fields accept `null` as
`None`. -/

def lookupField (o : List (String × Json)) (name : String) : Option Json :=
  (o.find? (fun p => p.1 = name)).map (fun p => p.2)

structure BaseToken where
  address : String
  name : String
  symbol : String
deriving DecidableEq

structure TransactionCount where
  buys : Int
  sells : Int
deriving DecidableEq

structure PairTransactionCounts where
  m5 : TransactionCount
  h1 : TransactionCount
  h6 : TransactionCount
  h24 : TransactionCount
deriving DecidableEq

structure TimePeriodsFloat where
  m5 : F64
  h1 : F64
  h6 : F64
  h24 : F64
deriving DecidableEq

structure Liquidity where
  usd : Option F64
  base : F64
  quote : F64
deriving DecidableEq

structure TokenPair where
  chain_id : String
  dex_id : String
  url : String
  pair_address : String
  labels : Option (List String)
  base_token : BaseToken
  quote_token : BaseToken
  price_native : F64
  price_usd : Option F64
  transactions : PairTransactionCounts
  volume : TimePeriodsFloat
  price_change : TimePeriodsFloat
  liquidity : Option Liquidity
  fdv : Option ℚ
  market_cap : Option F64
  pair_created_at : Option Int
deriving DecidableEq

structure PairResponse where
  pairs : List TokenPair
deriving DecidableEq

structure SearchResponse where
  pairs : List TokenPair
deriving DecidableEq

/-- Plain serde decode of a `String` field value. -/
def decodeString : Json → DResult String
  | .str s => .ok s
  | _ => .err (.invalidType "invalid type: expected a string")

/-- Plain serde decode of an `i64` field value. -/
def decodeI64 : Json → DResult Int
  | .num lit =>
    match jsonIntVal lit with
    | some v => .ok v
    | none => .err (.invalidType "invalid type: expected i64")
  | _ => .err (.invalidType "invalid type: expected i64")

/-- Plain serde decode of an `f64` field value (numbers only). -/
def decodeF64 : Json → DResult ℚ
  | .num lit =>
    match jsonNumQ lit with
    | some q => .ok q
    | none => .err (.invalidType "invalid type: expected f64")
  | _ => .err (.invalidType "invalid type: expected f64")

/-- A mandatory field decoded with a custom `deserialize_with` function:
absence is a `missing field` error. -/
def reqField {α : Type} (dec : Json → DResult α) (o : List (String × Json))
    (name : String) : DResult α :=
  match lookupField o name with
  | some j => dec j
  | none => .err (.missingField name)

/-- A `#[serde(default)]` + `deserialize_with = "deserialize_string_or_number"`
field (the four windows of `TimePeriodsFloat`): absence yields `0.0`. -/
def defNumField (o : List (String × Json)) (name : String) : DResult F64 :=
  match lookupField o name with
  | none => .ok (.finite 0)
  | some j => deserialize_string_or_number j

/-- A `#[serde(default)]` +
`deserialize_with = "deserialize_optional_string_or_number"` field
(`priceUsd`, `marketCap`, `Liquidity.usd`): absence yields `None`. -/
def optNumField (o : List (String × Json)) (name : String) : DResult (Option F64) :=
  match lookupField o name with
  | none => .ok none
  | some j => deserialize_optional_string_or_number j

/-- A `#[serde(default)]` +
`deserialize_with = "deserialize_timestamp_to_datetime"` field
(`pairCreatedAt`): absence yields `None`. -/
def optTimestampField (o : List (String × Json)) (name : String) : DResult (Option Int) :=
  match lookupField o name with
  | none => .ok none
  | some j => deserialize_timestamp_to_datetime j

def decodeBaseToken : Json → DResult BaseToken
  | .obj o => do
    let address ← reqField decodeString o "address"
    let nm ← reqField decodeString o "name"
    let symbol ← reqField decodeString o "symbol"
    pure ⟨address, nm, symbol⟩
  | _ => .err (.invalidType "invalid type: expected struct BaseToken")

def decodeTransactionCount : Json → DResult TransactionCount
  | .obj o => do
    let buys ← reqField decodeI64 o "buys"
    let sells ← reqField decodeI64 o "sells"
    pure ⟨buys, sells⟩
  | _ => .err (.invalidType "invalid type: expected struct TransactionCount")

def decodePairTransactionCounts : Json → DResult PairTransactionCounts
  | .obj o => do
    let m5 ← reqField decodeTransactionCount o "m5"
    let h1 ← reqField decodeTransactionCount o "h1"
    let h6 ← reqField decodeTransactionCount o "h6"
    let h24 ← reqField decodeTransactionCount o "h24"
    pure ⟨m5, h1, h6, h24⟩
  | _ => .err (.invalidType "invalid type: expected struct PairTransactionCounts")

def decodeTimePeriodsFloat : Json → DResult TimePeriodsFloat
  | .obj o => do
    let m5 ← defNumField o "m5"
    let h1 ← defNumField o "h1"
    let h6 ← defNumField o "h6"
    let h24 ← defNumField o "h24"
    pure ⟨m5, h1, h6, h24⟩
  | _ => .err (.invalidType "invalid type: expected struct TimePeriodsFloat")

def decodeLiquidity : Json → DResult Liquidity
  | .obj o => do
    let usd ← optNumField o "usd"
    let base ← reqField deserialize_string_or_number o "base"
    let quote ← reqField deserialize_string_or_number o "quote"
    pure ⟨usd, base, quote⟩
  | _ => .err (.invalidType "invalid type: expected struct Liquidity")

/-- `Option<Vec<String>>` with `#[serde(default)]` (`labels`). -/
def optLabelsField (o : List (String × Json)) (name : String) : DResult (Option (List String)) :=
  match lookupField o name with
  | none => .ok none
  | some .null => .ok none
  | some (.arr xs) => (xs.mapM decodeString).map some
  | some _ => .err (.invalidType "invalid type: expected a sequence")

/-- `Option<f64>` with `#[serde(default)]` (`fdv`): plain serde, only a JSON
number or `null` is accepted when the field is present. -/
def optPlainF64Field (o : List (String × Json)) (name : String) : DResult (Option ℚ) :=
  match lookupField o name with
  | none => .ok none
  | some .null => .ok none
  | some j => (decodeF64 j).map some

/-- `Option<Liquidity>` with `#[serde(default)]`. -/
def optLiquidityField (o : List (String × Json)) (name : String) : DResult (Option Liquidity) :=
  match lookupField o name with
  | none => .ok none
  | some .null => .ok none
  | some j => (decodeLiquidity j).map some

def decodeTokenPair : Json → DResult TokenPair
  | .obj o => do
    let chain_id ← reqField decodeString o "chainId"
    let dex_id ← reqField decodeString o "dexId"
    let url ← reqField decodeString o "url"
    let pair_address ← reqField decodeString o "pairAddress"
    let labels ← optLabelsField o "labels"
    let base_token ← reqField decodeBaseToken o "baseToken"
    let quote_token ← reqField decodeBaseToken o "quoteToken"
    let price_native ← reqField deserialize_string_or_number o "priceNative"
    let price_usd ← optNumField o "priceUsd"
    let transactions ← reqField decodePairTransactionCounts o "txns"
    let volume ← reqField decodeTimePeriodsFloat o "volume"
    let price_change ← reqField decodeTimePeriodsFloat o "priceChange"
    let liquidity ← optLiquidityField o "liquidity"
    let fdv ← optPlainF64Field o "fdv"
    let market_cap ← optNumField o "marketCap"
    let pair_created_at ← optTimestampField o "pairCreatedAt"
    pure ⟨chain_id, dex_id, url, pair_address, labels, base_token, quote_token,
      price_native, price_usd, transactions, volume, price_change, liquidity,
      fdv, market_cap, pair_created_at⟩
  | _ => .err (.invalidType "invalid type: expected struct TokenPair")

/-- Body of the two array-shaped endpoints: a bare JSON array of pairs. -/
def decodeTokenPairArray : Json → DResult PairResponse
  | .arr xs => (xs.mapM decodeTokenPair).map PairResponse.mk
  | _ => .err (.invalidType "invalid type: expected a sequence")

/-- Body of the object-shaped endpoints: `{ "pairs": [...] }`. -/
def decodePairResponse : Json → DResult PairResponse
  | .obj o => do
    let ps ← reqField decodeTokenPairArray o "pairs"
    pure ps
  | _ => .err (.invalidType "invalid type: expected struct PairResponse")

/-! ### Errors and the client (src/errors.rs, src/client.rs) -/

structure ErrorResponse where
  code : Option String
  message : String
deriving DecidableEq

/-- Decode of the failure payload `{ "code": string|null, "message": string }`
(`ErrorResponse` derives `Deserialize`; `code : Option<String>` treats an
absent key or `null` as `None`, `message : String` is required). -/
def decodeErrorResponse : Json → DResult ErrorResponse
  | .obj o => do
    let code ←
      match lookupField o "code" with
      | none => DResult.ok none
      | some .null => DResult.ok none
      | some (.str s) => DResult.ok (some s)
      | some _ => DResult.err (.invalidType "invalid type: expected a string or null")
    let message ← reqField decodeString o "message"
    pure ⟨code, message⟩
  | _ => .err (.invalidType "invalid type: expected struct ErrorResponse")

/-- `reqwest::Error`, reduced to the two sources that arise in this client:
a transport-level failure of `send()`, or a body-decode failure inside
`Response::json` (which wraps the serde error). -/
inductive ReqwestErr where
  | transportError
  | decodeError (e : DecErr)
deriving DecidableEq

/-- `DexScreenerError` (src/errors.rs).  The spec's abstract error kinds map
to it as: TransportError ≙ `reqwestError .transportError`,
ApiError ≙ `apiError`, DecodeError ≙ `serdeError`, and both TooManyInputs
and InvalidArgument ≙ `other` (built by `DexScreenerError::new`). -/
inductive DexScreenerError where
  | reqwestError (e : ReqwestErr)
  | apiError (er : ErrorResponse)
  | serdeError (e : DecErr)
  | other (msg : String)
deriving DecidableEq

/-- Outcome of a client operation: success, a returned `DexScreenerError`,
or a panic propagated from a decoder. -/
inductive ClientResult (α : Type) where
  | ok (a : α)
  | err (e : DexScreenerError)
  | panicked
deriving DecidableEq

structure HttpResponse where
  status : Nat
  body : Json

/-- `reqwest::StatusCode::is_success`: the 2xx range. -/
def isSuccessStatus (st : Nat) : Bool := 200 ≤ st ∧ st < 300

/-- The transport: maps a URL to a response, or `none` for a network/IO
failure of `send()`. -/
def Transport : Type := String → Option HttpResponse

/-- Interpretation of one HTTP outcome shared by all endpoints: on 2xx decode
the body with the endpoint's decoder, otherwise decode it as
`ErrorResponse` and surface `ApiError`.  Each `Response::json` failure is a
`reqwest::Error` and reaches the caller through the `?`-inserted
`From<reqwest::Error>` conversion, i.e. as `reqwestError`. -/
def handleResponse {T : Type} (decodeT : Json → DResult T) :
    Option HttpResponse → ClientResult T
  | none => .err (.reqwestError .transportError)
  | some resp =>
    if isSuccessStatus resp.status then
      match decodeT resp.body with
      | .ok v => .ok v
      | .err e => .err (.reqwestError (.decodeError e))
      | .panicked => .panicked
    else
      match decodeErrorResponse resp.body with
      | .ok er => .err (.apiError er)
      | .err e => .err (.reqwestError (.decodeError e))
      | .panicked => .panicked

/-- `DexScreenerClient::get_request` (src/client.rs): issue the GET and
interpret the outcome. -/
def get_request {T : Type} (decodeT : Json → DResult T) (transport : Transport)
    (url : String) : ClientResult T :=
  handleResponse decodeT (transport url)

/-- `get_pairs_by_token_addresses` (src/client.rs).  Returns the result
together with the list of URLs actually requested, to make "zero network
calls" statable.  More than 30 addresses fails up front with
`DexScreenerError::new("Too many token addresses. Maximum allowed is 30.")`
(the `Other` variant); otherwise one GET on the comma-joined URL, whose
success body is a bare array of `TokenPair`. -/
def get_pairs_by_token_addresses (base chain_id : String) (token_addresses : List String)
    (transport : Transport) : ClientResult PairResponse × List String :=
  if 30 < token_addresses.length then
    (.err (.other "Too many token addresses. Maximum allowed is 30."), [])
  else
    let url := base ++ "/tokens/v1/" ++ chain_id ++ "/" ++ String.intercalate "," token_addresses
    (handleResponse decodeTokenPairArray (transport url), [url])

/-! ## Helper lemmas -/

theorem DResult.bind_ok {α β : Type} (a : α) (f : α → DResult β) :
    (DResult.ok a >>= f) = f a := rfl

theorem DResult.pure_eq {α : Type} (a : α) : (pure a : DResult α) = .ok a := rfl

/-- C2.  The optional numeric decoder maps an absent field (via
`#[serde(default)]`), JSON `null`, and the empty string all to `None`
without error, and a JSON number to `Some` of its value. -/
theorem deserialize_optional_string_or_number_absence (o : List (String × Json))
    (name t : String) (q : ℚ) (habs : lookupField o name = none)
    (hq : jsonNumQ t = some q) :
    optNumField o name = .ok none ∧
    deserialize_optional_string_or_number .null = .ok none ∧
    deserialize_optional_string_or_number (.str "") = .ok none ∧
    deserialize_optional_string_or_number (.num t) = .ok (some (.finite q)) := by
  refine ⟨?_, rfl, rfl, ?_⟩
  · simp [optNumField, habs]
  · simp [deserialize_optional_string_or_number, hq]

/-- Witness for C2: an empty object (field absent) and the number `7`. -/
theorem deserialize_optional_string_or_number_absence_witness :
    optNumField [] "priceUsd" = .ok none ∧
    deserialize_optional_string_or_number .null = .ok none ∧
    deserialize_optional_string_or_number (.str "") = .ok none ∧
    deserialize_optional_string_or_number (.num "7")
        = .ok (some (.finite (decVal false ['7'] [] 0))) :=
  deserialize_optional_string_or_number_absence [] "priceUsd" "7" _ rfl rfl

/-- C5.  `get_pairs_by_token_addresses` with more than 30 addresses fails up
front with the local `Other`-kind error (the spec's `TooManyInputs`) and
issues no request; with 30 or fewer it issues exactly the one GET on the
comma-joined URL. -/
theorem get_pairs_by_token_addresses_cap (base chain : String) (addrs : List String)
    (transport : Transport) :
    (30 < addrs.length →
      get_pairs_by_token_addresses base chain addrs transport
        = (.err (.other "Too many token addresses. Maximum allowed is 30."), [])) ∧
    (addrs.length ≤ 30 →
      get_pairs_by_token_addresses base chain addrs transport
        = (handleResponse decodeTokenPairArray
             (transport (base ++ "/tokens/v1/" ++ chain ++ "/" ++
               String.intercalate "," addrs)),
           [base ++ "/tokens/v1/" ++ chain ++ "/" ++ String.intercalate "," addrs])) := by
  constructor
  · intro h
    simp [get_pairs_by_token_addresses, h]
  · intro h
    rw [get_pairs_by_token_addresses, if_neg (by omega)]

/-- Witness for C5: 31 addresses are rejected with no request; 30 addresses
produce exactly one request. -/
theorem get_pairs_by_token_addresses_cap_witness :
    get_pairs_by_token_addresses "b" "c" (List.replicate 31 "a") (fun _ => none)
      = (.err (.other "Too many token addresses. Maximum allowed is 30."), []) ∧
    get_pairs_by_token_addresses "b" "c" (List.replicate 30 "a") (fun _ => none)
      = (handleResponse decodeTokenPairArray
           ((fun _ => none) ("b" ++ "/tokens/v1/" ++ "c" ++ "/" ++
             String.intercalate "," (List.replicate 30 "a"))),
         ["b" ++ "/tokens/v1/" ++ "c" ++ "/" ++
             String.intercalate "," (List.replicate 30 "a")]) :=
  ⟨(get_pairs_by_token_addresses_cap "b" "c" (List.replicate 31 "a") (fun _ => none)).1
      (by decide),
   (get_pairs_by_token_addresses_cap "b" "c" (List.replicate 30 "a") (fun _ => none)).2
      (by decide)⟩

/-- C7 (code bug).  The decoders are claimed never to panic, but the
`Utc.timestamp_opt(..).unwrap()` in `deserialize_timestamp_to_datetime`
panics: for the JSON integer `9223372036854775807` (`i64::MAX`) the
computed seconds exceed chrono's range, and for the numeric string `"-1"`
the `as u32` cast of the negative sub-second remainder wraps to
4293967296 ≥ 2·10⁹, so `timestamp_opt` is `None` and `unwrap` aborts. -/
theorem deserialize_timestamp_to_datetime_panics :
    deserialize_timestamp_to_datetime (.num "9223372036854775807") = .panicked ∧
    deserialize_timestamp_to_datetime (.str "-1") = .panicked ∧
    deserialize_timestamp_to_datetime (.num "-1") = .panicked := by decide

/-- On non-negative, chrono-representable millisecond inputs, the
millisecond-epoch interpretation succeeds and produces exactly
`secs·10⁹ + rem·10⁶` nanoseconds. -/
theorem epochMsDecode_nonneg (ts : Int) (h0 : 0 ≤ ts) (hmax : ts ≤ 8210298412799999) :
    epochMsDecode ts
      = .ok (some (Int.tdiv ts 1000 * 1000000000 + Int.tmod ts 1000 * 1000000)) := by
  have e1 : Int.tdiv ts 1000 = ts / 1000 := Int.tdiv_eq_ediv h0 (by norm_num)
  have e2 : Int.tmod ts 1000 = ts % 1000 := Int.tmod_eq_emod h0 (by norm_num)
  have hx : ts % 1000 * 1000000 % 4294967296 = ts % 1000 * 1000000 :=
    Int.emod_eq_of_lt (by omega) (by omega)
  simp only [epochMsDecode, u32Cast, timestamp_opt, MIN_TIMESTAMP_SECS, MAX_TIMESTAMP_SECS,
    e1, e2, hx]
  rw [if_pos (by omega)]
  have hv : ((ts % 1000 * 1000000).toNat : Int) = ts % 1000 * 1000000 := by omega
  simp [hv]

/-- On negative, chrono-representable millisecond inputs that are exact
multiples of 1000 the sub-second remainder is zero, so the `as u32` cast
does not wrap and the decode succeeds. -/
theorem epochMsDecode_neg_multiple (ts : Int) (hneg : ts < 0)
    (htm : Int.tmod ts 1000 = 0) (hmin : -8334632851200000 ≤ ts) :
    epochMsDecode ts
      = .ok (some (Int.tdiv ts 1000 * 1000000000 + Int.tmod ts 1000 * 1000000)) := by
  have hq : 1000 * Int.tdiv ts 1000 + Int.tmod ts 1000 = ts := Int.tdiv_add_tmod ts 1000
  have hz : u32Cast (Int.tmod ts 1000 * 1000000) = 0 := by rw [htm]; rfl
  simp only [epochMsDecode, hz, timestamp_opt, MIN_TIMESTAMP_SECS, MAX_TIMESTAMP_SECS]
  rw [if_pos ⟨by norm_num, by omega, by omega⟩]
  simp [htm]

/-- Outside the successful domain (`0 ≤ ts ≤ 8210298412799999`, or a negative
multiple of 1000 that is `≥ -8334632851200000`) the millisecond decode hits
`Utc.timestamp_opt(..).unwrap()` on `LocalResult::None` and panics: either
the seconds fall outside chrono's range, or the negative sub-second
remainder wraps through the `as u32` cast to at least `2·10⁹`. -/
theorem epochMsDecode_panic (ts : Int)
    (hoff : ¬((0 ≤ ts ∧ ts ≤ 8210298412799999) ∨
        (ts < 0 ∧ Int.tmod ts 1000 = 0 ∧ -8334632851200000 ≤ ts))) :
    epochMsDecode ts = .panicked := by
  by_cases h0 : 0 ≤ ts
  · have e1 : Int.tdiv ts 1000 = ts / 1000 := Int.tdiv_eq_ediv h0 (by norm_num)
    have e2 : Int.tmod ts 1000 = ts % 1000 := Int.tmod_eq_emod h0 (by norm_num)
    have hbig : 8210298412799999 < ts := by omega
    have hx : ts % 1000 * 1000000 % 4294967296 = ts % 1000 * 1000000 :=
      Int.emod_eq_of_lt (by omega) (by omega)
    simp only [epochMsDecode, u32Cast, timestamp_opt, MIN_TIMESTAMP_SECS,
      MAX_TIMESTAMP_SECS, e1, e2, hx]
    rw [if_neg (by omega)]
  · have hneg : ts < 0 := by omega
    have hq : 1000 * Int.tdiv ts 1000 + Int.tmod ts 1000 = ts := Int.tdiv_add_tmod ts 1000
    by_cases htm : Int.tmod ts 1000 = 0
    · have hlt : ts < -8334632851200000 := by omega
      have hz : u32Cast (Int.tmod ts 1000 * 1000000) = 0 := by rw [htm]; rfl
      simp only [epochMsDecode, hz, timestamp_opt, MIN_TIMESTAMP_SECS, MAX_TIMESTAMP_SECS]
      rw [if_neg (by omega)]
    · have e4 : Int.tmod ts 1000 = -((-ts) % 1000) := by
        have hgen : Int.tmod (-(-ts)) 1000 = -(Int.tmod (-ts) 1000) := by
          rw [Int.tmod_def, Int.tmod_def, Int.neg_tdiv]
          ring
        rw [← Int.tmod_eq_emod (by omega : (0 : Int) ≤ -ts) (by norm_num), ← hgen, neg_neg]
      set k : Int := (-ts) % 1000 with hk
      have hk0 : 0 ≤ k := by omega
      have hk1 : k < 1000 := by omega
      have hkne : k ≠ 0 := by
        intro h0k
        exact htm (by rw [e4, h0k, neg_zero])
      have hwrap : Int.tmod ts 1000 * 1000000 % 4294967296 = 4294967296 - k * 1000000 := by
        rw [e4]
        calc (-k) * 1000000 % 4294967296
            = ((-k) * 1000000 + 4294967296 * 1) % 4294967296 :=
              (Int.add_mul_emod_self_left ((-k) * 1000000) 4294967296 1).symm
          _ = 4294967296 - k * 1000000 := by
              rw [show (-k) * 1000000 + 4294967296 * 1 = 4294967296 - k * 1000000 from by
                ring]
              exact Int.emod_eq_of_lt (by omega) (by omega)
      simp only [epochMsDecode, u32Cast, timestamp_opt, MIN_TIMESTAMP_SECS,
        MAX_TIMESTAMP_SECS, hwrap]
      rw [if_neg (by omega)]

/-- C4 (amended).  For every JSON integer `ts` in the decoder's successful
domain — `0 ≤ ts ≤ 8210298412799999`, or `ts < 0` an exact multiple of
1000 with `ts ≥ -8334632851200000` — the timestamp decoder yields the
instant `(ts / 1000)·10⁹ + (ts % 1000)·10⁶` ns (truncating division, as in
Rust), whose millisecond value is exactly `ts` (no truncation) and whose
epoch-second value is `ts / 1000`; for every other integer the `unwrap`
panics instead of producing an instant. -/
theorem deserialize_timestamp_integer_millis (lit : String) (ts : Int)
    (hlit : jsonIntVal lit = some ts) :
    (((0 ≤ ts ∧ ts ≤ 8210298412799999) ∨
        (ts < 0 ∧ Int.tmod ts 1000 = 0 ∧ -8334632851200000 ≤ ts)) →
      deserialize_timestamp_to_datetime (.num lit)
          = .ok (some (Int.tdiv ts 1000 * 1000000000 + Int.tmod ts 1000 * 1000000)) ∧
      timestamp_millis (Int.tdiv ts 1000 * 1000000000 + Int.tmod ts 1000 * 1000000)
          = ts ∧
      timestamp_secs (Int.tdiv ts 1000 * 1000000000 + Int.tmod ts 1000 * 1000000)
          = Int.tdiv ts 1000) ∧
    (¬((0 ≤ ts ∧ ts ≤ 8210298412799999) ∨
        (ts < 0 ∧ Int.tmod ts 1000 = 0 ∧ -8334632851200000 ≤ ts)) →
      deserialize_timestamp_to_datetime (.num lit) = .panicked) := by
  constructor
  · intro hdom
    have hq : 1000 * Int.tdiv ts 1000 + Int.tmod ts 1000 = ts := Int.tdiv_add_tmod ts 1000
    have hb : 0 ≤ Int.tmod ts 1000 ∧ Int.tmod ts 1000 < 1000 := by
      rcases hdom with ⟨h0, _⟩ | ⟨_, htm, _⟩
      · have := Int.tmod_eq_emod h0 (by norm_num : (0 : Int) ≤ 1000)
        omega
      · omega
    refine ⟨?_, ?_, ?_⟩
    · simp only [deserialize_timestamp_to_datetime, hlit]
      rcases hdom with ⟨h0, hmax⟩ | ⟨hneg, htm, hmin⟩
      · exact epochMsDecode_nonneg ts h0 hmax
      · exact epochMsDecode_neg_multiple ts hneg htm hmin
    · rw [timestamp_millis, Int.fdiv_eq_ediv _ (by norm_num)]
      omega
    · rw [timestamp_secs, Int.fdiv_eq_ediv _ (by norm_num)]
      omega
  · intro hoff
    simp only [deserialize_timestamp_to_datetime, hlit]
    exact epochMsDecode_panic ts hoff

/-- Witness for C4: the spec's example `1620250931000` (millisecond value
`1620250931000`, epoch seconds `1620250931`), the negative multiple
`-1000` (decodes to the instant one second before the epoch, millisecond
value `-1000`), and the off-domain `-1` (panics). -/
theorem deserialize_timestamp_integer_millis_witness :
    (deserialize_timestamp_to_datetime (.num "1620250931000")
        = .ok (some (Int.tdiv 1620250931000 1000 * 1000000000 +
            Int.tmod 1620250931000 1000 * 1000000)) ∧
      timestamp_millis (Int.tdiv 1620250931000 1000 * 1000000000 +
          Int.tmod 1620250931000 1000 * 1000000) = 1620250931000 ∧
      timestamp_secs (Int.tdiv 1620250931000 1000 * 1000000000 +
          Int.tmod 1620250931000 1000 * 1000000) = Int.tdiv 1620250931000 1000) ∧
    Int.tdiv 1620250931000 1000 = 1620250931 ∧
    (deserialize_timestamp_to_datetime (.num "-1000")
        = .ok (some (Int.tdiv (-1000) 1000 * 1000000000 +
            Int.tmod (-1000) 1000 * 1000000)) ∧
      timestamp_millis (Int.tdiv (-1000) 1000 * 1000000000 +
          Int.tmod (-1000) 1000 * 1000000) = -1000 ∧
      timestamp_secs (Int.tdiv (-1000) 1000 * 1000000000 +
          Int.tmod (-1000) 1000 * 1000000) = Int.tdiv (-1000) 1000) ∧
    deserialize_timestamp_to_datetime (.num "-1") = .panicked :=
  ⟨(deserialize_timestamp_integer_millis "1620250931000" 1620250931000
      (by decide)).1 (by decide),
   by decide,
   (deserialize_timestamp_integer_millis "-1000" (-1000) (by decide)).1 (by decide),
   (deserialize_timestamp_integer_millis "-1" (-1) (by decide)).2 (by decide)⟩

/-- C4 (counterexample to the claim as stated).  Not every JSON integer
decodes to an instant with that millisecond value: the integer `-1` makes
the decoder panic, because `((-1 % 1000) * 1_000_000) as u32` wraps to
`4293967296` and `Utc.timestamp_opt` rejects it, so `.unwrap()` aborts. -/
theorem deserialize_timestamp_integer_millis_counterexample :
    deserialize_timestamp_to_datetime (.num "-1") = .panicked ∧
    ∀ v : Option Int, deserialize_timestamp_to_datetime (.num "-1") ≠ .ok v := by
  refine ⟨by decide, ?_⟩
  intro v h
  rw [show deserialize_timestamp_to_datetime (.num "-1") = .panicked from by decide] at h
  cases h

/-- C3 (counterexample to the claim as stated).  When both string parse
attempts fail, the decode error does not carry the original input string:
the message is built from the fixed `ParseIntError` display text, so two
different unparseable inputs yield the identical error value. -/
theorem deserialize_timestamp_error_lacks_input :
    deserialize_timestamp_to_datetime (.str "banana")
        = .err (.custom "Failed to parse datetime: invalid digit found in string") ∧
    deserialize_timestamp_to_datetime (.str "banana")
        = deserialize_timestamp_to_datetime (.str "pineapple") := by decide

/-- C3 (amended).  On a non-empty string the decoder is an ordered fallback
chain: a successful strict RFC 3339 parse wins; only on its failure is the
string parsed as an integer and given the millisecond-epoch interpretation;
if both fail the result is a decode error whose message is
`"Failed to parse datetime: "` followed by the integer-parse failure's
fixed description (not the original input).  The empty string is `None`. -/
theorem deserialize_timestamp_string_fallback_chain (s : String) (hne : s ≠ "") :
    (∀ v, parse_from_rfc3339 s = some v →
        deserialize_timestamp_to_datetime (.str s) = .ok (some v)) ∧
    (∀ ts, parse_from_rfc3339 s = none → i64FromStr s = .ok ts →
        deserialize_timestamp_to_datetime (.str s) = epochMsDecode ts) ∧
    (∀ e, parse_from_rfc3339 s = none → i64FromStr s = .err e →
        deserialize_timestamp_to_datetime (.str s)
          = .err (.custom ("Failed to parse datetime: " ++ intErrMsg e))) ∧
    deserialize_timestamp_to_datetime (.str "") = .ok none := by
  refine ⟨?_, ?_, ?_, rfl⟩ <;> intros <;>
    simp [deserialize_timestamp_to_datetime, hne, *]

/-- Witness for C3: "banana" fails RFC 3339, fails the integer parse, and
surfaces the fixed-message decode error; "1620250931000" fails RFC 3339 and
succeeds as an integer. -/
theorem deserialize_timestamp_string_fallback_chain_witness :
    deserialize_timestamp_to_datetime (.str "banana")
        = .err (.custom ("Failed to parse datetime: " ++ intErrMsg .invalidDigit)) ∧
    deserialize_timestamp_to_datetime (.str "1620250931000")
        = epochMsDecode 1620250931000 ∧
    deserialize_timestamp_to_datetime (.str "2021-05-05T12:22:11Z")
        = .ok (some 1620217331000000000) :=
  ⟨(deserialize_timestamp_string_fallback_chain "banana" (by decide)).2.2.1
      .invalidDigit (by decide) (by decide),
   (deserialize_timestamp_string_fallback_chain "1620250931000" (by decide)).2.1
      1620250931000 (by decide) (by decide),
   (deserialize_timestamp_string_fallback_chain "2021-05-05T12:22:11Z" (by decide)).1
      1620217331000000000 (by decide)⟩

/-- C6 (amended).  On an HTTP non-success status every operation decodes the
body as the structured failure payload and surfaces it as `ApiError`
carrying exactly the payload's code and message; if that secondary decode
itself fails, the failure surfaces through the `ReqwestError` variant
(wrapping reqwest's body-decode error), not as `ApiError` and not as the
`SerdeError` JSON-parsing variant. -/
theorem get_request_api_error_surface (T : Type) (decodeT : Json → DResult T)
    (transport : Transport) (url : String) (resp : HttpResponse)
    (htr : transport url = some resp) (hst : isSuccessStatus resp.status = false) :
    (∀ er, decodeErrorResponse resp.body = .ok er →
        get_request decodeT transport url = .err (.apiError er)) ∧
    (∀ c m, resp.body = .obj [("code", .str c), ("message", .str m)] →
        get_request decodeT transport url = .err (.apiError ⟨some c, m⟩)) ∧
    (∀ e, decodeErrorResponse resp.body = .err e →
        get_request decodeT transport url = .err (.reqwestError (.decodeError e))) := by
  refine ⟨?_, ?_, ?_⟩
  · intro er her
    simp [get_request, handleResponse, htr, hst, her]
  · intro c m hb
    have hdec : decodeErrorResponse resp.body = .ok ⟨some c, m⟩ := by rw [hb]; rfl
    simp [get_request, handleResponse, htr, hst, hdec]
  · intro e he
    simp [get_request, handleResponse, htr, hst, he]

/-- Witness for C6 at the spec's example payload
`{"code":"BAD_CHAIN","message":"unknown chain"}` on status 400. -/
theorem get_request_api_error_surface_witness :
    get_request (fun _ => DResult.ok (0 : Int))
        (fun _ => some ⟨400, .obj [("code", .str "BAD_CHAIN"),
            ("message", .str "unknown chain")]⟩) "u"
      = .err (.apiError ⟨some "BAD_CHAIN", "unknown chain"⟩) :=
  (get_request_api_error_surface Int (fun _ => DResult.ok 0)
      (fun _ => some ⟨400, .obj [("code", .str "BAD_CHAIN"),
          ("message", .str "unknown chain")]⟩) "u"
      ⟨400, .obj [("code", .str "BAD_CHAIN"), ("message", .str "unknown chain")]⟩
      rfl rfl).2.1 "BAD_CHAIN" "unknown chain" rfl

/-- C6 (counterexample to the claim as stated).  When the failure-payload
decode itself fails (here: a 400 whose body lacks `message`), the surfaced
error is the `ReqwestError` transport-error variant wrapping the decode
failure — `response.json::<ErrorResponse>()` fails inside reqwest and the
`?` conversion is `From<reqwest::Error>` — not the `SerdeError`
decode/parsing variant of `DexScreenerError`. -/
theorem get_request_secondary_decode_failure :
    get_request (fun _ => DResult.ok (0 : Int))
        (fun _ => some ⟨400, .obj [("oops", .null)]⟩) "u"
      = .err (.reqwestError (.decodeError (.missingField "message"))) ∧
    DexScreenerError.reqwestError (.decodeError (.missingField "message"))
      ≠ .serdeError (.missingField "message") := by decide

/-- A defaulted window field always decodes when its present value does, and
yields `0.0` when absent. -/
theorem defNumField_spec (o : List (String × Json)) (name : String)
    (h : ∀ j, lookupField o name = some j →
        ∃ v, deserialize_string_or_number j = .ok v) :
    ∃ v, defNumField o name = .ok v ∧ (lookupField o name = none → v = .finite 0) := by
  cases hl : lookupField o name with
  | none => exact ⟨.finite 0, by simp [defNumField, hl], fun _ => rfl⟩
  | some j =>
    obtain ⟨v, hv⟩ := h j hl
    refine ⟨v, by simp [defNumField, hl, hv], ?_⟩
    intro hn
    simp at hn

/-- C9.  Decoding a `TimePeriodsFloat` (volume / price-change) object: every
window field absent from the input defaults to `0.0`, and absence is never
a decode error — the decode succeeds whenever the windows that are present
decode. -/
theorem decodeTimePeriodsFloat_absent_defaults (o : List (String × Json))
    (h : ∀ name, name ∈ (["m5", "h1", "h6", "h24"] : List String) → ∀ j,
        lookupField o name = some j → ∃ v, deserialize_string_or_number j = .ok v) :
    ∃ t, decodeTimePeriodsFloat (.obj o) = .ok t ∧
      (lookupField o "m5" = none → t.m5 = .finite 0) ∧
      (lookupField o "h1" = none → t.h1 = .finite 0) ∧
      (lookupField o "h6" = none → t.h6 = .finite 0) ∧
      (lookupField o "h24" = none → t.h24 = .finite 0) := by
  obtain ⟨v1, hv1, h01⟩ := defNumField_spec o "m5" (h "m5" (by simp))
  obtain ⟨v2, hv2, h02⟩ := defNumField_spec o "h1" (h "h1" (by simp))
  obtain ⟨v3, hv3, h03⟩ := defNumField_spec o "h6" (h "h6" (by simp))
  obtain ⟨v4, hv4, h04⟩ := defNumField_spec o "h24" (h "h24" (by simp))
  refine ⟨⟨v1, v2, v3, v4⟩, ?_, h01, h02, h03, h04⟩
  simp [decodeTimePeriodsFloat, hv1, hv2, hv3, hv4, DResult.bind_ok, DResult.pure_eq]

/-- Witness for C9: the empty object decodes with all four windows `0.0`. -/
theorem decodeTimePeriodsFloat_absent_defaults_witness :
    ∃ t, decodeTimePeriodsFloat (.obj []) = .ok t ∧
      (lookupField [] "m5" = none → t.m5 = .finite 0) ∧
      (lookupField [] "h1" = none → t.h1 = .finite 0) ∧
      (lookupField [] "h6" = none → t.h6 = .finite 0) ∧
      (lookupField [] "h24" = none → t.h24 = .finite 0) :=
  decodeTimePeriodsFloat_absent_defaults []
    (by intro name _ j hj; simp [lookupField] at hj)

/-- The four ASCII whitespace characters are rejected by every branch point
of the number/timestamp grammars. -/
theorem whitespace_char_facts (c : Char) (h : c.isWhitespace = true) :
    c ≠ '+' ∧ c ≠ '-' ∧ c.isDigit = false ∧ c ≠ '.' ∧
    c.toLower ≠ 'i' ∧ c.toLower ≠ 'n' := by
  have h' : c = ' ' ∨ c = '\t' ∨ c = '\x0d' ∨ c = '\n' := by
    simpa [Char.isWhitespace, or_assoc] using h
  rcases h' with rfl | rfl | rfl | rfl <;>
    exact ⟨by decide, by decide, by decide, by decide, by decide, by decide⟩

theorem rustKeyword_head_not_letter (neg : Bool) (c : Char) (r : List Char)
    (hi : c.toLower ≠ 'i') (hn : c.toLower ≠ 'n') :
    rustKeyword neg (c :: r) = none := by
  have e1 : "inf".data = ['i', 'n', 'f'] := rfl
  have e2 : "infinity".data = ['i', 'n', 'f', 'i', 'n', 'i', 't', 'y'] := rfl
  have e3 : "nan".data = ['n', 'a', 'n'] := rfl
  simp [rustKeyword, e1, e2, e3, hi, hn]

theorem rustFloatTail_nondigit_head (neg : Bool) (c : Char) (r : List Char)
    (hdig : c.isDigit = false) (hdot : c ≠ '.')
    (hi : c.toLower ≠ 'i') (hn : c.toLower ≠ 'n') :
    rustFloatTail neg (c :: r) = none := by
  have hsd : splitDigits (c :: r) = ([], c :: r) := by simp [splitDigits, hdig]
  have hds : dotSplit (c :: r) = none := by simp [dotSplit, hdot]
  simp [rustFloatTail, hsd, hds, rustKeyword_head_not_letter neg c r hi hn]

theorem rustFloatParse_whitespace (s : String) (hne : s.data ≠ [])
    (hws : ∀ c ∈ s.data, c.isWhitespace = true) : rustFloatParse s = none := by
  simp only [rustFloatParse]
  cases hd : s.data with
  | nil => exact absurd hd hne
  | cons c r =>
    obtain ⟨hp, hm, hdig, hdot, hi, hn⟩ :=
      whitespace_char_facts c (hws c (by rw [hd]; exact List.mem_cons_self c r))
    simp only [hd]
    rw [if_neg hp, if_neg hm]
    exact rustFloatTail_nondigit_head false c r hdig hdot hi hn

theorem i64FromStr_whitespace (s : String) (hne : s.data ≠ [])
    (hws : ∀ c ∈ s.data, c.isWhitespace = true) :
    i64FromStr s = .err .invalidDigit := by
  simp only [i64FromStr]
  cases hd : s.data with
  | nil => exact absurd hd hne
  | cons c r =>
    obtain ⟨hp, hm, hdig, _, _, _⟩ :=
      whitespace_char_facts c (hws c (by rw [hd]; exact List.mem_cons_self c r))
    simp only [hd]
    rw [if_neg hp, if_neg hm]
    simp [i64Accum, hdig]

theorem parseNDigitsAux_nondigit (n acc : Nat) (c : Char) (r : List Char)
    (h : c.isDigit = false) : parseNDigitsAux (n + 1) acc (c :: r) = none := by
  simp [parseNDigitsAux, h]

theorem rfc3339_whitespace (s : String) (hne : s.data ≠ [])
    (hws : ∀ c ∈ s.data, c.isWhitespace = true) : parse_from_rfc3339 s = none := by
  cases hd : s.data with
  | nil => exact absurd hd hne
  | cons c r =>
    obtain ⟨_, _, hdig, _, _, _⟩ :=
      whitespace_char_facts c (hws c (by rw [hd]; exact List.mem_cons_self c r))
    have h4 : parseNDigits 4 s.data = none := by
      rw [hd]
      exact parseNDigitsAux_nondigit 3 0 c r hdig
    simp only [parse_from_rfc3339]
    rw [h4]
    rfl

/-- C10.  Only the exactly-empty string is treated as absence: every
non-empty all-whitespace string fails the float parse in the optional
numeric decoder and fails both the RFC 3339 and integer parses in the
timestamp decoder, producing decode errors rather than "no value" — the
absence policy does not trim whitespace. -/
theorem whitespace_string_is_error_not_absence (s : String) (hne : s.data ≠ [])
    (hws : ∀ c ∈ s.data, c.isWhitespace = true) :
    deserialize_optional_string_or_number (.str s)
        = .err (.custom "invalid float literal") ∧
    deserialize_timestamp_to_datetime (.str s)
        = .err (.custom ("Failed to parse datetime: " ++ intErrMsg .invalidDigit)) := by
  have hs : s ≠ "" := by
    intro h
    apply hne
    rw [h]
  constructor
  · simp [deserialize_optional_string_or_number, hs,
      rustFloatParse_whitespace s hne hws]
  · simp [deserialize_timestamp_to_datetime, hs, rfc3339_whitespace s hne hws,
      i64FromStr_whitespace s hne hws]

/-- Witness for C10 at the single-space string. -/
theorem whitespace_string_is_error_not_absence_witness :
    deserialize_optional_string_or_number (.str " ")
        = .err (.custom "invalid float literal") ∧
    deserialize_timestamp_to_datetime (.str " ")
        = .err (.custom ("Failed to parse datetime: " ++ intErrMsg .invalidDigit)) :=
  whitespace_string_is_error_not_absence " " (by decide) (by decide)

end DexscreenerRs
